import Mathlib

/-!
Shallow embedding of `src/translator.py`: a CLI tool translating between
English and Spanish via a LibreTranslate-compatible endpoint, with language
auto-detection, word-count based local-endpoint selection, and a one-shot
fallback to the default endpoint when the local endpoint fails.

External effects are modelled as oracles:
  * `detect : String → Except String String` — the `langdetect.detect` call,
    returning a language code or raising (modelled as `Except.error`);
  * `svc : Option String → String → String → String → Except String String` —
    the `LibreTranslator(...).translate(text)` network call; its first argument
    is the endpoint actually given to the library (`none` = built-in default),
    then source, target, text.

Python truthiness of optional strings (`if api_url`, `if chosen_api_url and
chosen_api_url == args.local_url`) is modelled explicitly: `none` and
`some ""` are falsy.
-/

namespace Translator

/-- Characters for which Python's `str.isspace()` is true; `str.strip()` and
`str.split()` (no arguments) split/strip exactly on these. -/
def pyIsSpace (c : Char) : Bool :=
  c.toNat = 0x09 || c.toNat = 0x0a || c.toNat = 0x0b || c.toNat = 0x0c ||
  c.toNat = 0x0d || c.toNat = 0x1c || c.toNat = 0x1d || c.toNat = 0x1e ||
  c.toNat = 0x1f || c.toNat = 0x20 || c.toNat = 0x85 || c.toNat = 0xa0 ||
  c.toNat = 0x1680 || (0x2000 ≤ c.toNat && c.toNat ≤ 0x200a) ||
  c.toNat = 0x2028 || c.toNat = 0x2029 || c.toNat = 0x202f ||
  c.toNat = 0x205f || c.toNat = 0x3000

/-- Python's `text.strip()`: drop leading and trailing whitespace. -/
def pyStrip (s : String) : String :=
  String.mk (((s.toList.dropWhile pyIsSpace).reverse.dropWhile pyIsSpace).reverse)

/-- Python's `c.isascii()`: code point below 128. -/
def pyIsAscii (c : Char) : Bool :=
  c.toNat < 128

/-- Number of maximal whitespace-free runs in a character list (equals
`len(s.split())` in Python). The boolean flag records whether the previous
character belonged to a word. -/
def countWordsAux : List Char → Bool → Nat
  | [], _ => 0
  | c :: cs, inWord =>
    if pyIsSpace c then countWordsAux cs false
    else (if inWord then 0 else 1) + countWordsAux cs true

/-- `count_words` from translator.py, lines 40-41:
`len([w for w in text.strip().split() if w])`. -/
def count_words (text : String) : Nat :=
  countWordsAux (pyStrip text).toList false

/-- Number of ASCII characters of the text: `sum(c.isascii() for c in text)`. -/
def ascii_count (text : String) : Nat :=
  (text.toList.filter pyIsAscii).length

/-- `auto_detect_language` from translator.py, lines 27-37, with the
`langdetect.detect` call abstracted into the `detect` oracle. A raising
`detect` propagates as `Except.error`. The ASCII-ratio comparison
`ascii_count/max(len,1) > 0.9` is expressed exactly as
`9 * max len 1 < 10 * ascii_count` (exact arithmetic in place of the
float division of the source, which agrees on all realistic inputs). -/
def auto_detect_language (detect : String → Except String String)
    (text : String) : Except String String :=
  match detect text with
  | Except.error e => Except.error e
  | Except.ok code =>
    if code.startsWith "en" then Except.ok "en"
    else if code.startsWith "es" then Except.ok "es"
    else if 9 * max text.length 1 < 10 * ascii_count text then Except.ok "en"
    else Except.ok "es"

/-- Source-language resolution in `translate_text`, lines 53-54: use the
given source, else auto-detect. -/
def resolve_source (detect : String → Except String String) (text : String) :
    Option String → Except String String
  | some s => Except.ok s
  | none => auto_detect_language detect text

/-- Target-language resolution in `translate_text`, lines 56-57:
`target = "es" if source == "en" else "en"` when target is unspecified. -/
def resolve_target (src : String) : Option String → String
  | some t => t
  | none => if src = "en" then "es" else "en"

/-- Endpoint actually handed to the translation library, line 62:
`LibreTranslator(..., api_url=api_url) if api_url else LibreTranslator(...)` —
Python truthiness makes both `None` and `""` fall back to the built-in
default endpoint (`none`). -/
def effective_url : Option String → Option String
  | none => none
  | some u => if u = "" then none else some u

/-- Result of one `translate_text` call: the returned string or the raised
error, together with how many detector and network calls were made. -/
structure TransOutcome where
  result : Except String String
  detectCalls : Nat
  networkCalls : Nat
  deriving Repr

/-- `translate_text` from translator.py, lines 44-63. -/
def translate_text (detect : String → Except String String)
    (svc : Option String → String → String → String → Except String String)
    (text : String) (source target api_url : Option String) : TransOutcome :=
  if pyStrip text = "" then
    { result := Except.ok "", detectCalls := 0, networkCalls := 0 }
  else
    let d : Nat := match source with | none => 1 | some _ => 0
    match resolve_source detect text source with
    | Except.error e => { result := Except.error e, detectCalls := d, networkCalls := 0 }
    | Except.ok src =>
      let tgt := resolve_target src target
      if src = tgt then
        { result := Except.ok text, detectCalls := d, networkCalls := 0 }
      else
        { result := svc (effective_url api_url) src tgt text,
          detectCalls := d, networkCalls := 1 }

/-- Parsed command-line arguments of `main` (translator.py, lines 66-77),
after argparse has done its own validation. -/
structure Args where
  text : Option String
  source : Option String
  target : Option String
  api_url : Option String
  local_url : String
  no_local_short : Bool
  short_threshold : Int

/-- The input text of `main`, lines 84-88: the positional argument if given,
otherwise all of standard input. -/
def input_text (stdin : String) (args : Args) : String :=
  match args.text with
  | some t => t
  | none => stdin

/-- Endpoint selection of `main`, lines 90-95. `localShortEnabled` is the
environment-derived `DEFAULT_LOCAL_SHORT_ENABLED`. -/
def choose_api_url (localShortEnabled : Bool) (args : Args)
    (itext : String) : Option String :=
  match args.api_url with
  | some u => some u
  | none =>
    if (localShortEnabled && !args.no_local_short)
        && ((count_words itext : Int) ≤ args.short_threshold) then
      some args.local_url
    else
      none

/-- The retry guard of `main`, line 106:
`if chosen_api_url and chosen_api_url == args.local_url` — Python truthiness
makes `None` and `""` fail the guard. -/
def fallback_to_default (chosen : Option String) (local_url : String) : Bool :=
  match chosen with
  | none => false
  | some u => !(u == "") && (u == local_url)

/-- Observable outcome of one `main` invocation: process exit code, what was
written to standard output, the messages printed to standard error, and the
endpoint argument of each `translate_text` attempt in order. -/
structure MainOutcome where
  exitCode : Nat
  stdout : String
  stderrLines : List String
  attempts : List (Option String)
  deriving Repr

/-- `main` from translator.py, lines 80-123. -/
def main (detect : String → Except String String)
    (svc : Option String → String → String → String → Except String String)
    (localShortEnabled : Bool) (stdin : String) (args : Args) : MainOutcome :=
  let itext := input_text stdin args
  let chosen := choose_api_url localShortEnabled args itext
  match (translate_text detect svc itext args.source args.target chosen).result with
  | Except.ok output =>
    { exitCode := 0, stdout := output, stderrLines := [], attempts := [chosen] }
  | Except.error _ =>
    if fallback_to_default chosen args.local_url then
      match (translate_text detect svc itext args.source args.target none).result with
      | Except.ok output =>
        { exitCode := 0, stdout := output, stderrLines := [],
          attempts := [chosen, none] }
      | Except.error e =>
        { exitCode := 1, stdout := "",
          stderrLines := ["Translation failed: " ++ e],
          attempts := [chosen, none] }
    else
      { exitCode := 1, stdout := "",
        stderrLines := ["Translation failed: unable to reach translation service."],
        attempts := [chosen] }

/-- Detector oracle that always raises, for scenarios where the source
language is given explicitly and detection is never reached. -/
def ceDetect : String → Except String String :=
  fun _ => Except.error "no detection"

/-- Service oracle for an unreachable translation service: every call fails. -/
def ceSvcDown : Option String → String → String → String → Except String String :=
  fun _ _ _ _ => Except.error "down"

/-- Service oracle where every explicit endpoint is down but the built-in
default endpoint works. -/
def ceSvcFallback : Option String → String → String → String → Except String String :=
  fun ep _ _ t =>
    match ep with
    | some _ => Except.error "down"
    | none => Except.ok ("T:" ++ t)

/-- Invocation with an empty configured local URL (reachable via
LT_LOCAL_URL="" or `--local-url ""`) and a short text. -/
def ceArgs1 : Args :=
  ⟨some "hola", some "en", some "es", none, "", false, 200⟩

/-- Invocation whose explicit `--api-url` equals the configured local URL. -/
def ceArgs2 : Args :=
  ⟨some "hola", some "en", some "es", some "http://local", "http://local", false, 200⟩

/-- Invocation selecting a non-empty local endpoint for a short text. -/
def wArgs1 : Args :=
  ⟨some "hola", some "en", some "es", none, "http://local", false, 200⟩

/-- Invocation with an explicit `--api-url` different from the local URL. -/
def wArgs2 : Args :=
  ⟨some "hola", some "en", some "es", some "http://x", "http://local", false, 200⟩

/-- A string all of whose characters are Python whitespace strips to empty. -/
lemma pyStrip_eq_empty_of_all_space (s : String) (h : s.toList.all pyIsSpace = true) :
    pyStrip s = "" := by
  unfold pyStrip
  have h1 : s.toList.dropWhile pyIsSpace = [] := by
    rw [List.dropWhile_eq_nil_iff]
    intro x hx
    exact List.all_eq_true.mp h x hx
  rw [h1]
  rfl

/-- C3: with no explicit endpoint URL and local-preference enabled, the local
endpoint is selected exactly when the word count of the input is at most the
configured threshold; above the threshold no endpoint is selected
(default/remote). -/
theorem c3_threshold_selects_local (lse : Bool) (args : Args) (itext : String)
    (hapi : args.api_url = none) (hen : (lse && !args.no_local_short) = true) :
    (choose_api_url lse args itext = some args.local_url ↔
      (count_words itext : Int) ≤ args.short_threshold) ∧
    (¬ ((count_words itext : Int) ≤ args.short_threshold) →
      choose_api_url lse args itext = none) := by
  unfold choose_api_url
  rw [hapi, hen]
  simp only [Bool.true_and]
  constructor
  · constructor
    · intro h
      by_contra hc
      rw [if_neg (by simpa using hc)] at h
      exact Option.noConfusion h
    · intro h
      rw [if_pos (by simpa using h)]
  · intro h
    rw [if_neg (by simpa using h)]

/-- C4: an explicit caller-supplied endpoint URL is always the chosen
endpoint, whatever the local-preference configuration and word count. -/
theorem c4_explicit_url_overrides (lse : Bool) (args : Args) (itext : String)
    (u : String) (hapi : args.api_url = some u) :
    choose_api_url lse args itext = some u := by
  unfold choose_api_url
  rw [hapi]

/-- C5: whitespace-only (or empty) text makes translate_text return the empty
string at once, for all source, target and endpoint arguments, with no
network call. -/
theorem c5_whitespace_empty (detect : String → Except String String)
    (svc : Option String → String → String → String → Except String String)
    (text : String) (source target api_url : Option String)
    (hws : text.toList.all pyIsSpace = true) :
    translate_text detect svc text source target api_url =
      { result := Except.ok "", detectCalls := 0, networkCalls := 0 } := by
  unfold translate_text
  rw [if_pos (pyStrip_eq_empty_of_all_space text hws)]

/-- C7: when the target language is unspecified, the resolved target is "es"
for source "en" and "en" otherwise; it always lies in the supported set and
never equals the resolved source. -/
theorem c7_target_default (src : String) :
    resolve_target src none = (if src = "en" then "es" else "en") ∧
    (resolve_target src none = "en" ∨ resolve_target src none = "es") ∧
    resolve_target src none ≠ src := by
  refine ⟨rfl, ?_, ?_⟩
  · unfold resolve_target
    by_cases h : src = "en"
    · rw [if_pos h]; exact Or.inr rfl
    · rw [if_neg h]; exact Or.inl rfl
  · unfold resolve_target
    by_cases h : src = "en"
    · rw [if_pos h, h]; decide
    · rw [if_neg h]; exact fun hc => h hc.symm

/-- C10: on whitespace-only text translate_text never consults the language
detector — the outcome is the same for any two detectors, the detector call
count is zero, and the result is the empty string, so no detection error can
occur. -/
theorem c10_no_detection_on_whitespace (d1 d2 : String → Except String String)
    (svc : Option String → String → String → String → Except String String)
    (text : String) (source target api_url : Option String)
    (hws : text.toList.all pyIsSpace = true) :
    translate_text d1 svc text source target api_url =
      translate_text d2 svc text source target api_url ∧
    (translate_text d1 svc text source target api_url).detectCalls = 0 ∧
    (translate_text d1 svc text source target api_url).result = Except.ok "" := by
  have he := pyStrip_eq_empty_of_all_space text hws
  unfold translate_text
  rw [if_pos he, if_pos he]
  exact ⟨rfl, rfl, rfl⟩

/-- Witness for C3: three words with threshold 3 select the local endpoint. -/
theorem c3_threshold_selects_local_witness :
    choose_api_url true ⟨none, none, none, none, "http://L", false, 3⟩ "one two three" =
      some "http://L" :=
  (c3_threshold_selects_local true ⟨none, none, none, none, "http://L", false, 3⟩
    "one two three" rfl rfl).1.mpr (by decide)

/-- Witness for C4: an explicit URL wins even on a long text with local
preference enabled. -/
theorem c4_explicit_url_overrides_witness :
    choose_api_url true ⟨none, none, none, some "http://X", "http://L", false, 0⟩
      "a b c d e" = some "http://X" :=
  c4_explicit_url_overrides true ⟨none, none, none, some "http://X", "http://L", false, 0⟩
    "a b c d e" "http://X" rfl

/-- Witness for C5: a tab-space-newline text yields the empty result with no
calls. -/
theorem c5_whitespace_empty_witness :
    translate_text (fun _ => Except.error "det") (fun _ _ _ _ => Except.error "net")
      " \t\n" (some "en") (some "es") (some "http://L") =
      { result := Except.ok "", detectCalls := 0, networkCalls := 0 } :=
  c5_whitespace_empty (fun _ => Except.error "det") (fun _ _ _ _ => Except.error "net")
    " \t\n" (some "en") (some "es") (some "http://L") (by decide)

/-- Witness for C10: two distinct detectors agree on whitespace-only input. -/
theorem c10_no_detection_on_whitespace_witness :
    translate_text (fun _ => Except.error "boom") (fun _ _ _ _ => Except.error "net")
      "  " none none none =
      translate_text (fun _ => Except.ok "en") (fun _ _ _ _ => Except.error "net")
      "  " none none none ∧
    (translate_text (fun _ => Except.error "boom") (fun _ _ _ _ => Except.error "net")
      "  " none none none).detectCalls = 0 ∧
    (translate_text (fun _ => Except.error "boom") (fun _ _ _ _ => Except.error "net")
      "  " none none none).result = Except.ok "" :=
  c10_no_detection_on_whitespace (fun _ => Except.error "boom") (fun _ => Except.ok "en")
    (fun _ _ _ _ => Except.error "net") "  " none none none (by decide)

/-- The exact ASCII fraction exceeds 9/10 exactly when the cross-multiplied
natural-number comparison used in auto_detect_language holds. -/
lemma ascii_fraction_iff (text : String) :
    (9 : ℚ) / 10 < (ascii_count text : ℚ) / (max text.length 1 : ℚ) ↔
      9 * max text.length 1 < 10 * ascii_count text := by
  have hb : (0 : ℚ) < (max text.length 1 : ℚ) := by
    have h1 : (1 : ℕ) ≤ max text.length 1 := le_max_right _ _
    exact_mod_cast Nat.lt_of_lt_of_le Nat.zero_lt_one h1
  rw [div_lt_div_iff₀ (by norm_num : (0 : ℚ) < 10) hb]
  constructor
  · intro h
    have h2 : ((9 * max text.length 1 : ℕ) : ℚ) < ((10 * ascii_count text : ℕ) : ℚ) := by
      push_cast
      linarith
    exact_mod_cast h2
  · intro h
    have h2 : ((9 * max text.length 1 : ℕ) : ℚ) < ((10 * ascii_count text : ℕ) : ℚ) := by
      exact_mod_cast h
    push_cast at h2
    linarith

/-- C6: on non-whitespace text, when the resolved source equals the resolved
target, translate_text returns the input unchanged with no network call. -/
theorem c6_identity_translation (detect : String → Except String String)
    (svc : Option String → String → String → String → Except String String)
    (text : String) (source target api_url : Option String) (src : String)
    (hne : pyStrip text ≠ "")
    (hsrc : resolve_source detect text source = Except.ok src)
    (htgt : resolve_target src target = src) :
    (translate_text detect svc text source target api_url).result = Except.ok text ∧
    (translate_text detect svc text source target api_url).networkCalls = 0 := by
  unfold translate_text
  rw [if_neg hne, hsrc]
  simp only [htgt, if_pos rfl]
  exact ⟨rfl, rfl⟩

/-- C8: whenever the underlying detector returns a code on a non-empty text,
auto_detect_language returns "en" or "es": codes starting with "en" map to
"en", codes starting with "es" map to "es", and for any other code the result
is "en" exactly when the ASCII fraction of the text exceeds 0.9, else "es". -/
theorem c8_detect_maps (detect : String → Except String String) (text code : String)
    (_hne : text ≠ "") (hdet : detect text = Except.ok code) :
    ∃ r, auto_detect_language detect text = Except.ok r ∧ (r = "en" ∨ r = "es") ∧
      (code.startsWith "en" = true → r = "en") ∧
      (code.startsWith "en" = false → code.startsWith "es" = true → r = "es") ∧
      (code.startsWith "en" = false → code.startsWith "es" = false →
        (r = "en" ↔ (9 : ℚ) / 10 < (ascii_count text : ℚ) / (max text.length 1 : ℚ))) := by
  clear _hne
  unfold auto_detect_language
  simp only [hdet]
  by_cases hen : code.startsWith "en"
  · refine ⟨"en", ?_, Or.inl rfl, fun _ => rfl, ?_, ?_⟩
    · rw [if_pos hen]
    · exact fun h _ => absurd (hen.symm.trans h) (by decide)
    · exact fun h _ => absurd (hen.symm.trans h) (by decide)
  · rw [if_neg hen]
    by_cases hes : code.startsWith "es"
    · refine ⟨"es", ?_, Or.inr rfl, ?_, fun _ _ => rfl, ?_⟩
      · rw [if_pos hes]
      · exact fun h => absurd h hen
      · exact fun _ h => absurd (hes.symm.trans h) (by decide)
    · rw [if_neg hes]
      by_cases hr : 9 * max text.length 1 < 10 * ascii_count text
      · refine ⟨"en", ?_, Or.inl rfl, fun _ => rfl, ?_, ?_⟩
        · rw [if_pos hr]
        · exact fun _ h => absurd h hes
        · intro _ _
          exact ⟨fun _ => (ascii_fraction_iff text).mpr hr, fun _ => rfl⟩
      · refine ⟨"es", ?_, Or.inr rfl, ?_, ?_, ?_⟩
        · rw [if_neg hr]
        · exact fun h => absurd h hen
        · exact fun _ h => absurd h hes
        · intro _ _
          constructor
          · intro h; exact absurd h (by decide)
          · intro h; exact absurd ((ascii_fraction_iff text).mp h) hr

/-- Witness for C6: explicit identical source and target on real text. -/
theorem c6_identity_translation_witness :
    (translate_text (fun _ => Except.error "det") (fun _ _ _ _ => Except.error "net")
      "hola" (some "en") (some "en") none).result = Except.ok "hola" ∧
    (translate_text (fun _ => Except.error "det") (fun _ _ _ _ => Except.error "net")
      "hola" (some "en") (some "en") none).networkCalls = 0 :=
  c6_identity_translation (fun _ => Except.error "det") (fun _ _ _ _ => Except.error "net")
    "hola" (some "en") (some "en") none "en" (by decide) rfl rfl

/-- Witness for C8: a detector answering "fr" on a fully ASCII text makes the
heuristic return "en". -/
theorem c8_detect_maps_witness :
    ∃ r, auto_detect_language (fun _ => Except.ok "fr") "hello" = Except.ok r ∧
      (r = "en" ∨ r = "es") ∧
      (String.startsWith "fr" "en" = true → r = "en") ∧
      (String.startsWith "fr" "en" = false → String.startsWith "fr" "es" = true → r = "es") ∧
      (String.startsWith "fr" "en" = false → String.startsWith "fr" "es" = false →
        (r = "en" ↔ (9 : ℚ) / 10 <
          (ascii_count "hello" : ℚ) / (max (String.length "hello") 1 : ℚ))) :=
  c8_detect_maps (fun _ => Except.ok "fr") "hello" "fr" (by decide) rfl

/-- Unfolding of main when the first translation attempt succeeds. -/
lemma main_first_ok (detect : String → Except String String)
    (svc : Option String → String → String → String → Except String String)
    (lse : Bool) (stdin : String) (args : Args) (out : String)
    (h : (translate_text detect svc (input_text stdin args) args.source args.target
        (choose_api_url lse args (input_text stdin args))).result = Except.ok out) :
    main detect svc lse stdin args =
      { exitCode := 0, stdout := out, stderrLines := [],
        attempts := [choose_api_url lse args (input_text stdin args)] } := by
  unfold main
  simp only [h]

/-- Unfolding of main when the first translation attempt fails. -/
lemma main_first_error (detect : String → Except String String)
    (svc : Option String → String → String → String → Except String String)
    (lse : Bool) (stdin : String) (args : Args) (e : String)
    (h : (translate_text detect svc (input_text stdin args) args.source args.target
        (choose_api_url lse args (input_text stdin args))).result = Except.error e) :
    main detect svc lse stdin args =
      if fallback_to_default (choose_api_url lse args (input_text stdin args))
          args.local_url then
        match (translate_text detect svc (input_text stdin args) args.source args.target
            none).result with
        | Except.ok output =>
          { exitCode := 0, stdout := output, stderrLines := [],
            attempts := [choose_api_url lse args (input_text stdin args), none] }
        | Except.error e2 =>
          { exitCode := 1, stdout := "",
            stderrLines := ["Translation failed: " ++ e2],
            attempts := [choose_api_url lse args (input_text stdin args), none] }
      else
        { exitCode := 1, stdout := "",
          stderrLines := ["Translation failed: unable to reach translation service."],
          attempts := [choose_api_url lse args (input_text stdin args)] } := by
  unfold main
  simp only [h]

/-- C1 (amended): when the first attempt fails on a selected endpoint that is
non-empty and equal to the configured local URL, main performs exactly one
retry, against the default endpoint; a successful retry is emitted with exit
code 0, a failed one exits with code 1; and no invocation ever makes more
than two translation attempts. -/
theorem c1_fallback_retry :
    (∀ (detect : String → Except String String)
       (svc : Option String → String → String → String → Except String String)
       (lse : Bool) (stdin : String) (args : Args) (u e : String),
      choose_api_url lse args (input_text stdin args) = some u →
      u ≠ "" →
      u = args.local_url →
      (translate_text detect svc (input_text stdin args) args.source args.target
        (some u)).result = Except.error e →
      (main detect svc lse stdin args).attempts = [some u, none] ∧
      (∀ out, (translate_text detect svc (input_text stdin args) args.source args.target
          none).result = Except.ok out →
        (main detect svc lse stdin args).exitCode = 0 ∧
        (main detect svc lse stdin args).stdout = out) ∧
      (∀ e2, (translate_text detect svc (input_text stdin args) args.source args.target
          none).result = Except.error e2 →
        (main detect svc lse stdin args).exitCode = 1)) ∧
    (∀ (detect : String → Except String String)
       (svc : Option String → String → String → String → Except String String)
       (lse : Bool) (stdin : String) (args : Args),
      (main detect svc lse stdin args).attempts.length ≤ 2) := by
  constructor
  · intro detect svc lse stdin args u e hch hnz hloc hfirst
    subst hloc
    have hm := main_first_error detect svc lse stdin args e (by rw [hch]; exact hfirst)
    have hfb : fallback_to_default (choose_api_url lse args (input_text stdin args))
        args.local_url = true := by
      rw [hch]
      unfold fallback_to_default
      simp [hnz]
    rw [hfb, if_pos rfl, hch] at hm
    refine ⟨?_, ?_, ?_⟩
    · rcases hsec : (translate_text detect svc (input_text stdin args) args.source
          args.target none).result with e2 | out
      · rw [hsec] at hm; rw [hm]
      · rw [hsec] at hm; rw [hm]
    · intro out hout
      rw [hout] at hm
      rw [hm]
      exact ⟨rfl, rfl⟩
    · intro e2 he2
      rw [he2] at hm
      rw [hm]
  · intro detect svc lse stdin args
    rcases hfirst : (translate_text detect svc (input_text stdin args) args.source
        args.target (choose_api_url lse args (input_text stdin args))).result with e | out
    · have hm := main_first_error detect svc lse stdin args e hfirst
      by_cases hfb : fallback_to_default (choose_api_url lse args (input_text stdin args))
          args.local_url = true
      · rw [hfb, if_pos rfl] at hm
        rcases hsec : (translate_text detect svc (input_text stdin args) args.source
            args.target none).result with e2 | out
        · rw [hsec] at hm; rw [hm]; exact Nat.le_refl 2
        · rw [hsec] at hm; rw [hm]; exact Nat.le_refl 2
      · rw [if_neg (by simpa using hfb)] at hm
        rw [hm]
        exact Nat.le_succ 1
    · rw [main_first_ok detect svc lse stdin args out hfirst]
      exact Nat.le_succ 1

/-- C1 counterexample: with configured local URL "" and a short text, the
selected endpoint equals the configured local URL and the attempt fails, yet
main performs no retry at all (Python truthiness skips the fallback guard)
and exits 1 with the "unable to reach" message. -/
theorem c1_counterexample :
    choose_api_url true ceArgs1 (input_text "" ceArgs1) = some ceArgs1.local_url ∧
    (translate_text ceDetect ceSvcDown (input_text "" ceArgs1) ceArgs1.source
      ceArgs1.target (some ceArgs1.local_url)).result = Except.error "down" ∧
    (main ceDetect ceSvcDown true "" ceArgs1).attempts = [some ""] ∧
    (main ceDetect ceSvcDown true "" ceArgs1).exitCode = 1 ∧
    (main ceDetect ceSvcDown true "" ceArgs1).stderrLines =
      ["Translation failed: unable to reach translation service."] :=
  ⟨rfl, rfl, rfl, rfl, rfl⟩

/-- Witness for C1: a failing non-empty local endpoint triggers exactly one
retry against the default endpoint, which succeeds. -/
theorem c1_fallback_retry_witness :
    (main ceDetect ceSvcFallback true "" wArgs1).attempts = [some "http://local", none] ∧
    (main ceDetect ceSvcFallback true "" wArgs1).exitCode = 0 ∧
    (main ceDetect ceSvcFallback true "" wArgs1).stdout = "T:hola" :=
  have h := c1_fallback_retry.1 ceDetect ceSvcFallback true "" wArgs1 "http://local"
    "down" rfl (by decide) rfl rfl
  ⟨h.1, (h.2.1 "T:hola" rfl).1, (h.2.1 "T:hola" rfl).2⟩

/-- C2 (amended): when the first attempt fails and the selected endpoint is
none, empty, or a URL different from the configured local URL, main fails
immediately with the distinct "unable to reach" message, exit code 1, empty
standard output and no retry. -/
theorem c2_no_retry_nonlocal (detect : String → Except String String)
    (svc : Option String → String → String → String → Except String String)
    (lse : Bool) (stdin : String) (args : Args) (e : String)
    (hsel : choose_api_url lse args (input_text stdin args) = none ∨
      choose_api_url lse args (input_text stdin args) = some "" ∨
      (∃ u, choose_api_url lse args (input_text stdin args) = some u ∧
        u ≠ args.local_url))
    (hfirst : (translate_text detect svc (input_text stdin args) args.source
        args.target (choose_api_url lse args (input_text stdin args))).result =
        Except.error e) :
    main detect svc lse stdin args =
      { exitCode := 1, stdout := "",
        stderrLines := ["Translation failed: unable to reach translation service."],
        attempts := [choose_api_url lse args (input_text stdin args)] } := by
  have hm := main_first_error detect svc lse stdin args e hfirst
  have hfb : fallback_to_default (choose_api_url lse args (input_text stdin args))
      args.local_url = false := by
    rcases hsel with h | h | ⟨u, hu, hne⟩
    · rw [h]; rfl
    · rw [h]; rfl
    · rw [hu]
      unfold fallback_to_default
      simp [hne]
  rw [hfb, if_neg (by simp)] at hm
  exact hm

/-- C2 counterexample: an explicit caller-supplied endpoint equal to the
configured local URL fails, yet main retries against the default endpoint and
even succeeds with exit code 0 — no immediate failure, no "unable to reach"
message. -/
theorem c2_counterexample :
    ceArgs2.api_url = some "http://local" ∧
    (translate_text ceDetect ceSvcFallback (input_text "" ceArgs2) ceArgs2.source
      ceArgs2.target (choose_api_url true ceArgs2 (input_text "" ceArgs2))).result =
      Except.error "down" ∧
    main ceDetect ceSvcFallback true "" ceArgs2 =
      { exitCode := 0, stdout := "T:hola", stderrLines := [],
        attempts := [some "http://local", none] } :=
  ⟨rfl, rfl, rfl⟩

/-- Witness for C2: a failing explicit endpoint different from the local URL
fails at once with the distinct message and a single attempt. -/
theorem c2_no_retry_nonlocal_witness :
    main ceDetect ceSvcDown true "" wArgs2 =
      { exitCode := 1, stdout := "",
        stderrLines := ["Translation failed: unable to reach translation service."],
        attempts := [some "http://x"] } :=
  c2_no_retry_nonlocal ceDetect ceSvcDown true "" wArgs2 "down"
    (Or.inr (Or.inr ⟨"http://x", rfl, by decide⟩)) rfl

/-- C9: every invocation of main either exits 0, printing nothing to standard
error and writing to standard output exactly the text returned by a
successful translation attempt (no added newline), or exits 1 with empty
standard output and exactly one message on standard error. -/
theorem c9_exit_codes (detect : String → Except String String)
    (svc : Option String → String → String → String → Except String String)
    (lse : Bool) (stdin : String) (args : Args) :
    ((main detect svc lse stdin args).exitCode = 0 ∧
     (main detect svc lse stdin args).stderrLines = [] ∧
     (∃ ep, ep ∈ (main detect svc lse stdin args).attempts ∧
       (translate_text detect svc (input_text stdin args) args.source args.target
         ep).result = Except.ok ((main detect svc lse stdin args).stdout))) ∨
    ((main detect svc lse stdin args).exitCode = 1 ∧
     (main detect svc lse stdin args).stdout = "" ∧
     (main detect svc lse stdin args).stderrLines.length = 1) := by
  rcases hfirst : (translate_text detect svc (input_text stdin args) args.source
      args.target (choose_api_url lse args (input_text stdin args))).result with e | out
  · have hm := main_first_error detect svc lse stdin args e hfirst
    by_cases hfb : fallback_to_default (choose_api_url lse args (input_text stdin args))
        args.local_url = true
    · rw [hfb, if_pos rfl] at hm
      rcases hsec : (translate_text detect svc (input_text stdin args) args.source
          args.target none).result with e2 | out
      · rw [hsec] at hm
        right
        rw [hm]
        exact ⟨rfl, rfl, rfl⟩
      · rw [hsec] at hm
        left
        rw [hm]
        exact ⟨rfl, rfl, none, by simp, hsec⟩
    · rw [if_neg (by simpa using hfb)] at hm
      right
      rw [hm]
      exact ⟨rfl, rfl, rfl⟩
  · have hm := main_first_ok detect svc lse stdin args out hfirst
    left
    rw [hm]
    exact ⟨rfl, rfl, choose_api_url lse args (input_text stdin args), by simp, hfirst⟩

end Translator
